import Mathlib

/-!
Verification of the fingerprint template vault of the
GreonXpert MobileApplicationBackend repository.

We give a shallow embedding of `src/models/User.js` (the `Fingerprint`
mongoose model: encryption, hashing, deduplication, lifecycle methods)
and of the HTTP handlers in `src/routes/fingerprintRoutes.js`
(enroll, get-template, revoke), and prove the testable properties of
the specification against this embedding.

Modelling conventions:
* Bytes are `Nat` values (kept below 256 by construction where it matters);
  a Node `Buffer` is a `List Nat`.
* AES-256-GCM is modelled structurally: a CTR keystream `ks iv i` is XORed
  into the plaintext byte at index `i`, and the 16-byte authentication tag
  is an abstract function `tagF iv ciphertext`.  The process-wide key is
  implicit in `ks`/`tagF` (the key is fixed, read-only state).  Claims that
  depend on GCM guarantees (tag length 16, single-bit-flip detection) take
  those guarantees as explicit hypotheses on `tagF`.
* The random 16-byte IV drawn by `crypto.randomBytes(16)` is an explicit
  parameter `iv`.
* `crypto.createHash(sha256)` is embedded as a full executable SHA-256
  over byte lists, with hex output, mirroring `digest(hex)`.
* MongoDB persistence is a `List Fingerprint`; `save()` runs the schema
  validators and then the unique index on `templateHash` (declared
  `unique: true` in the schema, i.e. over ALL documents whatever their
  status), exactly as mongoose + MongoDB enforce them.
* `Date.now()` is an explicit `now : Nat` parameter; clock values are
  abstract ticks.
* Informational `device` metadata is carried as two strings
  (vendor, model); quality and finger metadata are carried as options.
-/

set_option maxRecDepth 200000

namespace Vault

/-- Lifecycle status of a fingerprint record (`status` enum in the schema). -/
inductive Status where
  | ACTIVE
  | REVOKED
  | EXPIRED
deriving DecidableEq, Repr

/-- Render a status the way mongoose stores it, used in error messages. -/
def Status.str : Status → String
  | .ACTIVE => "ACTIVE"
  | .REVOKED => "REVOKED"
  | .EXPIRED => "EXPIRED"

/-! ## Base64 (Node `Buffer.from(s, base64)` and `toString(base64)`)

Node's Base64 decoder is lenient: every character outside the Base64
alphabet (including padding handled positionally) is skipped, and a
trailing group of 2 or 3 alphabet characters still contributes 1 or 2
bytes.  In particular `Buffer.from` NEVER throws on malformed input.
-/

/-- Value of one Base64 alphabet character; `none` for characters Node's
decoder skips.  Node also accepts the URL-safe alphabet. -/
def b64Val (c : Char) : Option Nat :=
  let n := c.toNat
  if 65 ≤ n ∧ n ≤ 90 then some (n - 65)        -- A..Z
  else if 97 ≤ n ∧ n ≤ 122 then some (n - 71)  -- a..z
  else if 48 ≤ n ∧ n ≤ 57 then some (n + 4)    -- 0..9
  else if n = 43 ∨ n = 45 then some 62          -- + and url-safe -
  else if n = 47 ∨ n = 95 then some 63          -- / and url-safe _
  else none

/-- Decode a stream of 6-bit values into bytes, 4 values to 3 bytes,
with Node's handling of a short trailing group. -/
def decodeQuads : List Nat → List Nat
  | v0 :: v1 :: v2 :: v3 :: rest =>
      ((v0 <<< 2) ||| (v1 >>> 4)) ::
      (((v1 &&& 15) <<< 4) ||| (v2 >>> 2)) ::
      (((v2 &&& 3) <<< 6) ||| v3) :: decodeQuads rest
  | [v0, v1, v2] =>
      [((v0 <<< 2) ||| (v1 >>> 4)), (((v1 &&& 15) <<< 4) ||| (v2 >>> 2))]
  | [v0, v1] => [((v0 <<< 2) ||| (v1 >>> 4))]
  | _ => []

/-- `Buffer.from(s, base64)`: skip non-alphabet characters, decode the rest. -/
def decodeBase64 (s : String) : List Nat :=
  decodeQuads (s.data.filterMap b64Val)

/-- Base64 alphabet character for a 6-bit value. -/
def b64Char (n : Nat) : Char :=
  if n < 26 then Char.ofNat (65 + n)
  else if n < 52 then Char.ofNat (71 + n)
  else if n < 62 then Char.ofNat (n - 4)
  else if n = 62 then Char.ofNat 43
  else Char.ofNat 47

/-- Encode bytes in groups of three, padding with `=` (`toString(base64)`). -/
def encodeTriples : List Nat → List Char
  | b0 :: b1 :: b2 :: rest =>
      b64Char (b0 >>> 2) :: b64Char (((b0 &&& 3) <<< 4) ||| (b1 >>> 4)) ::
      b64Char (((b1 &&& 15) <<< 2) ||| (b2 >>> 6)) :: b64Char (b2 &&& 63) ::
      encodeTriples rest
  | [b0, b1] =>
      [b64Char (b0 >>> 2), b64Char (((b0 &&& 3) <<< 4) ||| (b1 >>> 4)),
       b64Char ((b1 &&& 15) <<< 2), Char.ofNat 61]
  | [b0] =>
      [b64Char (b0 >>> 2), b64Char ((b0 &&& 3) <<< 4),
       Char.ofNat 61, Char.ofNat 61]
  | [] => []

/-- `buffer.toString(base64)`. -/
def encodeBase64 (b : List Nat) : String :=
  String.mk (encodeTriples b)

/-! ## SHA-256 (`crypto.createHash(sha256)` ... `digest(hex)`)

Executable SHA-256 over byte lists, 32-bit words represented as `Nat`
reduced mod `2 ^ 32`. -/

/-- Reduce to a 32-bit word. -/
def w32 (n : Nat) : Nat := n % 4294967296

/-- Right rotation of a 32-bit word. -/
def rotr (n x : Nat) : Nat := w32 ((x >>> n) ||| (x <<< (32 - n)))

/-- Big sigma 0. -/
def bsig0 (x : Nat) : Nat := (rotr 2 x) ^^^ (rotr 13 x) ^^^ (rotr 22 x)

/-- Big sigma 1. -/
def bsig1 (x : Nat) : Nat := (rotr 6 x) ^^^ (rotr 11 x) ^^^ (rotr 25 x)

/-- Small sigma 0. -/
def ssig0 (x : Nat) : Nat := (rotr 7 x) ^^^ (rotr 18 x) ^^^ (x >>> 3)

/-- Small sigma 1. -/
def ssig1 (x : Nat) : Nat := (rotr 17 x) ^^^ (rotr 19 x) ^^^ (x >>> 10)

/-- Choice function. -/
def chF (e f g : Nat) : Nat := (e &&& f) ^^^ ((e ^^^ 4294967295) &&& g)

/-- Majority function. -/
def majF (a b c : Nat) : Nat := (a &&& b) ^^^ (a &&& c) ^^^ (b &&& c)

/-- The 64 SHA-256 round constants of FIPS 180-4, in decimal. -/
def K256 : List Nat :=
  [1116352408, 1899447441, 3049323471, 3921009573, 961987163,
   1508970993, 2453635748, 2870763221, 3624381080, 310598401,
   607225278, 1426881987, 1925078388, 2162078206, 2614888103,
   3248222580, 3835390401, 4022224774, 264347078, 604807628,
   770255983, 1249150122, 1555081692, 1996064986, 2554220882,
   2821834349, 2952996808, 3210313671, 3336571891, 3584528711,
   113926993, 338241895, 666307205, 773529912, 1294757372,
   1396182291, 1695183700, 1986661051, 2177026350, 2456956037,
   2730485921, 2820302411, 3259730800, 3345764771, 3516065817,
   3600352804, 4094571909, 275423344, 430227734, 506948616,
   659060556, 883997877, 958139571, 1322822218, 1537002063,
   1747873779, 1955562222, 2024104815, 2227730452, 2361852424,
   2428436474, 2756734187, 3204031479, 3329325298]

/-- The SHA-256 initial hash value of FIPS 180-4, in decimal. -/
def H256 : List Nat :=
  [1779033703, 3144134277, 1013904242, 2773480762,
   1359893119, 2600822924, 528734635, 1541459225]

/-- Big-endian byte expansion of `n` into `count` bytes. -/
def beBytes (count n : Nat) : List Nat :=
  (List.range count).map (fun i => (n >>> (8 * (count - 1 - i))) % 256)

/-- SHA-256 padding: append `0x80`, zero fill, then the 64-bit bit length. -/
def padMessage (m : List Nat) : List Nat :=
  let L := m.length
  m ++ [128] ++ List.replicate ((119 - (L % 64)) % 64) 0 ++ beBytes 8 (8 * L)

/-- Read the 16 big-endian 32-bit words of one 64-byte block. -/
def blockWords (blk : List Nat) : List Nat :=
  (List.range 16).map (fun i =>
    ((blk.getD (4 * i) 0) <<< 24) ||| ((blk.getD (4 * i + 1) 0) <<< 16) |||
    ((blk.getD (4 * i + 2) 0) <<< 8) ||| (blk.getD (4 * i + 3) 0))

/-- Extend a message schedule by one word. -/
def extendSchedule (w : List Nat) : List Nat :=
  w ++ [w32 (ssig1 (w.getD (w.length - 2) 0) + w.getD (w.length - 7) 0 +
             ssig0 (w.getD (w.length - 15) 0) + w.getD (w.length - 16) 0)]

/-- The full 64-word message schedule of one block. -/
def schedule (m16 : List Nat) : List Nat :=
  (List.range 48).foldl (fun w _ => extendSchedule w) m16

/-- One compression round on the state `[a,b,c,d,e,f,g,h]`. -/
def compressRound (st : List Nat) (k w : Nat) : List Nat :=
  let a := st.getD 0 0
  let b := st.getD 1 0
  let c := st.getD 2 0
  let d := st.getD 3 0
  let e := st.getD 4 0
  let f := st.getD 5 0
  let g := st.getD 6 0
  let h := st.getD 7 0
  let t1 := w32 (h + bsig1 e + chF e f g + k + w)
  let t2 := w32 (bsig0 a + majF a b c)
  [w32 (t1 + t2), a, b, c, w32 (d + t1), e, f, g]

/-- Compress one 64-byte block into the running hash value. -/
def compressBlock (h8 blk : List Nat) : List Nat :=
  let st := (List.zip K256 (schedule (blockWords blk))).foldl
    (fun st p => compressRound st p.1 p.2) h8
  List.zipWith (fun x y => w32 (x + y)) h8 st

/-- SHA-256 digest (32 bytes) of a byte list. -/
def sha256 (m : List Nat) : List Nat :=
  let padded := padMessage m
  let h8 := (List.range (padded.length / 64)).foldl
    (fun h i => compressBlock h ((padded.drop (64 * i)).take 64)) H256
  h8.foldr (fun wrd acc => beBytes 4 wrd ++ acc) []

/-- One lowercase hex digit. -/
def hexChar (n : Nat) : Char :=
  Char.ofNat (if n < 10 then 48 + n else 87 + n)

/-- Lowercase hex rendering of a byte list (`digest(hex)`). -/
def bytesToHex (b : List Nat) : String :=
  String.mk (b.foldr (fun x acc => hexChar (x / 16 % 16) :: hexChar (x % 16) :: acc) [])

/-- `hashTemplate` from `src/models/User.js`: hex SHA-256 of the raw bytes. -/
def hashTemplate (b : List Nat) : String :=
  bytesToHex (sha256 b)

/-! ## AES-256-GCM model

`aes-256-gcm` is counter-mode encryption plus a 16-byte GHASH-based
authentication tag.  We model the keystream as an abstract function
`ks iv i` (byte `i` of the keystream under the process key for nonce
`iv`, reduced mod 256) and the tag as an abstract function
`tagF iv ciphertext`.  `cipher.update/final` XOR the keystream into the
data; `decipher.final` throws iff the stored tag differs from the tag
recomputed over the received ciphertext, which the model reflects by
returning `none`. -/

/-- CTR keystream application: byte `i` of `data` XOR byte `i` of the
keystream.  Encryption and decryption both apply this map. -/
def ctr (ks : List Nat → Nat → Nat) (iv data : List Nat) : List Nat :=
  List.zipWith Nat.xor data ((List.range data.length).map (fun i => ks iv i % 256))

/-- `encryptTemplate` from `src/models/User.js`: fresh 16-byte `iv`
(passed explicitly, drawn by `crypto.randomBytes(16)` in the source),
then the envelope `iv ++ authTag ++ ciphertext`. -/
def encryptTemplate (ks : List Nat → Nat → Nat)
    (tagF : List Nat → List Nat → List Nat) (iv plaintext : List Nat) : List Nat :=
  let ciphertext := ctr ks iv plaintext
  iv ++ tagF iv ciphertext ++ ciphertext

/-- `decryptTemplate` from `src/models/User.js`: slice the envelope at
offsets 0:16 (iv), 16:32 (authTag), 32: (ciphertext); `none` models the
authentication failure thrown by `decipher.final()`. -/
def decryptTemplate (ks : List Nat → Nat → Nat)
    (tagF : List Nat → List Nat → List Nat) (encrypted : List Nat) : Option (List Nat) :=
  let iv := encrypted.take 16
  let authTag := (encrypted.drop 16).take 16
  let ciphertext := encrypted.drop 32
  if tagF iv ciphertext = authTag then some (ctr ks iv ciphertext) else none

/-! ## The Fingerprint record and its methods -/

/-- One `Fingerprint` document (`src/models/User.js` schema fields the
claims touch; `device` is carried as vendor/model strings). -/
structure Fingerprint where
  id : Nat
  employeeId : String
  fingerIndexF : Option Int
  fingerName : String
  format : String
  quality : Option Int
  encryptedTemplate : List Nat
  templateHash : String
  deviceVendor : String
  deviceModel : String
  enrolledBy : String
  enrolledAt : Nat
  status : Status
  revokedAt : Option Nat
  revokedBy : Option String
  revokeReason : Option String
  lastVerifiedAt : Option Nat
  verificationCount : Nat
deriving DecidableEq, Repr

/-- Raw template argument of `setTemplate`: a `Buffer` or a Base64 string. -/
inductive TemplateInput where
  | bytes (b : List Nat)
  | b64 (s : String)
deriving DecidableEq, Repr

/-- Return value of `setTemplate`. -/
structure SetTemplateInfo where
  templateHash : String
  encryptedSize : Nat
  originalSize : Nat
deriving DecidableEq, Repr

/-- `setTemplate` method: decode a Base64 argument, bound the size,
hash the plaintext BEFORE encryption, store the envelope.  The thrown
`Error` is modelled as `Except.error` with the source's message. -/
def setTemplate (ks : List Nat → Nat → Nat)
    (tagF : List Nat → List Nat → List Nat) (iv : List Nat)
    (fp : Fingerprint) (template : TemplateInput) :
    Except String (Fingerprint × SetTemplateInfo) :=
  let templateBuffer := match template with
    | .bytes b => b
    | .b64 s => decodeBase64 s
  if templateBuffer.length = 0 ∨ templateBuffer.length > 10 * 1024 * 1024 then
    .error ("Template must be between 1 byte and 10MB")
  else
    let h := hashTemplate templateBuffer
    let enc := encryptTemplate ks tagF iv templateBuffer
    .ok ({ fp with templateHash := h, encryptedTemplate := enc },
         { templateHash := h, encryptedSize := enc.length,
           originalSize := templateBuffer.length })

/-- `getTemplate` method: decrypt, rethrowing any decryption failure as
the source's generic error message.  (The source's `!this.encryptedTemplate`
guard only fires on a missing Buffer, which the typed model excludes.) -/
def getTemplate (ks : List Nat → Nat → Nat)
    (tagF : List Nat → List Nat → List Nat) (fp : Fingerprint) :
    Except String (List Nat) :=
  match decryptTemplate ks tagF fp.encryptedTemplate with
  | some pt => .ok pt
  | none => .error ("Failed to decrypt template")

/-- `getTemplateBase64` method. -/
def getTemplateBase64 (ks : List Nat → Nat → Nat)
    (tagF : List Nat → List Nat → List Nat) (fp : Fingerprint) :
    Except String String :=
  (getTemplate ks tagF fp).map encodeBase64

/-- JavaScript `a || b` on an optional string: the default is used when
the value is absent OR empty (empty strings are falsy). -/
def jsOr (o : Option String) (dflt : String) : String :=
  match o with
  | some s => if s = "" then dflt else s
  | none => dflt

/-- `revoke` method: unconditional status overwrite plus audit stamps.
The source performs NO status check before revoking. -/
def revoke (now : Nat) (fp : Fingerprint) (revokedBy : String)
    (reason : Option String) : Fingerprint :=
  { fp with
    status := .REVOKED
    revokedAt := some now
    revokedBy := some revokedBy
    revokeReason := some (jsOr reason ("No reason provided")) }

/-- `recordVerification` method. -/
def recordVerification (now : Nat) (fp : Fingerprint) : Fingerprint :=
  { fp with
    lastVerifiedAt := some now
    verificationCount := fp.verificationCount + 1 }

/-! ## Persistence model -/

/-- The MongoDB collection. -/
abbrev Store := List Fingerprint

/-- `templateExists` static: counts documents with the given hash AND
status ACTIVE; the application-level duplicate pre-check. -/
def templateExists (store : Store) (h : String) : Bool :=
  store.any (fun fp => decide (fp.templateHash = h ∧ fp.status = Status.ACTIVE))

/-- Errors surfaced by `save()`: a mongoose validator failure, or the
MongoDB duplicate-key error (code 11000) from the `unique: true` index
on `templateHash` — an index over ALL documents, not only ACTIVE ones. -/
inductive SaveError where
  | validationFailed (msg : String)
  | duplicateKey
deriving DecidableEq, Repr

/-- The `encryptedTemplate` schema validator: length in [1, 10485760]
bytes of ENCRYPTED envelope.  (The `v &&` truthiness test in the source
never fails for a present Buffer.) -/
def encryptedTemplateValid (v : List Nat) : Bool :=
  decide (v.length > 0 ∧ v.length ≤ 10 * 1024 * 1024)

/-- `save()` of a new document: mongoose validators first, then the
unique index on `templateHash` at the database. -/
def saveNew (store : Store) (fp : Fingerprint) : Except SaveError Store :=
  if ¬ encryptedTemplateValid fp.encryptedTemplate then
    .error (.validationFailed ("Template must be between 1 byte and 10MB"))
  else if store.any (fun r => decide (r.templateHash = fp.templateHash)) then
    .error .duplicateKey
  else
    .ok (store ++ [fp])

/-- `save()` of an already-persisted document: validators, then the
unique index against the OTHER documents, then in-place replacement. -/
def saveExisting (store : Store) (fp : Fingerprint) : Except SaveError Store :=
  if ¬ encryptedTemplateValid fp.encryptedTemplate then
    .error (.validationFailed ("Template must be between 1 byte and 10MB"))
  else if store.any (fun r => decide (r.templateHash = fp.templateHash ∧ r.id ≠ fp.id)) then
    .error .duplicateKey
  else
    .ok (store.map (fun r => if r.id = fp.id then fp else r))

/-! ## HTTP handlers (`src/routes/fingerprintRoutes.js`)

The route layer is embedded as pure functions of the request, the
collection and an employee directory; the JSON responses are embedded
as inductive values carrying the fields the claims inspect, with the
source's HTTP status code recoverable through a `...Status` function. -/

/-- JavaScript falsiness of an optional string request field. -/
def jsFalsy (o : Option String) : Bool :=
  match o with
  | some s => s = ""
  | none => true

/-- The format whitelist of the enroll route. -/
def validFormats : List String :=
  ["ISO_19794_2", "ISO_19794_4", "ANSI_378", "PROPRIETARY"]

/-- `if (format && !validFormats.includes(format))`. -/
def badFormat (o : Option String) : Bool :=
  match o with
  | some f => (¬ (f = "")) && (¬ validFormats.contains f)
  | none => false

/-- Range rejection of an optional integer field (`fingerIndex`,
`quality`); absent fields are not validated. -/
def optOutside (o : Option Int) (lo hi : Int) : Bool :=
  match o with
  | some i => decide (i < lo ∨ hi < i)
  | none => false

/-- Body of `POST /api/fingerprints/enroll`. -/
structure EnrollReq where
  employeeId : Option String
  templateBase64 : Option String
  format : Option String
  fingerIndexR : Option Int
  fingerName : Option String
  quality : Option Int
  deviceInfo : Option (String × String)
deriving Repr

/-- Response of the enroll route. -/
inductive EnrollResp where
  | badRequest (msg : String)
  | notFound (msg : String)
  | conflict (msg : String)
  | serverError (msg : String)
  | created (fp : Fingerprint)
deriving DecidableEq, Repr

/-- HTTP status code of an enroll response. -/
def enrollStatus : EnrollResp → Nat
  | .badRequest _ => 400
  | .notFound _ => 404
  | .conflict _ => 409
  | .serverError _ => 500
  | .created _ => 201

/-- Is the enroll response the 201-created success? -/
def EnrollResp.isCreated : EnrollResp → Bool
  | .created _ => true
  | _ => false

/-- The enroll route from the decoded template buffer on: size bounds,
document construction, `setTemplate`, duplicate pre-check, `save()`.
The catch-all of the route maps a duplicate-key save error (code 11000)
to 409 and every other save error to 500. -/
def enrollDecoded (ks : List Nat → Nat → Nat)
    (tagF : List Nat → List Nat → List Nat) (iv : List Nat) (now : Nat)
    (store : Store) (employeeId : String) (templateBuffer : List Nat)
    (format : Option String) (fingerIndexR : Option Int)
    (fingerName : Option String) (quality : Option Int)
    (deviceInfo : Option (String × String)) (actor : String) (newId : Nat) :
    EnrollResp × Store :=
  if templateBuffer.length = 0 ∨ templateBuffer.length > 10 * 1024 * 1024 then
    (.badRequest ("Template size must be between 1 byte and 10MB"), store)
  else
    let fp0 : Fingerprint :=
      { id := newId
        employeeId := employeeId
        fingerIndexF := fingerIndexR
        fingerName := jsOr fingerName ("UNKNOWN")
        format := jsOr format ("ISO_19794_2")
        quality := quality
        encryptedTemplate := []
        templateHash := ""
        deviceVendor := (deviceInfo.getD ("Mantra", "MFS110")).1
        deviceModel := (deviceInfo.getD ("Mantra", "MFS110")).2
        enrolledBy := actor
        enrolledAt := now
        status := .ACTIVE
        revokedAt := none
        revokedBy := none
        revokeReason := none
        lastVerifiedAt := none
        verificationCount := 0 }
    match setTemplate ks tagF iv fp0 (.bytes templateBuffer) with
    | .error msg => (.badRequest ("Template processing failed: " ++ msg), store)
    | .ok (fp, _) =>
      if templateExists store fp.templateHash then
        (.conflict ("This fingerprint template is already enrolled (duplicate detected)"), store)
      else
        match saveNew store fp with
        | .error .duplicateKey =>
            (.conflict ("Duplicate fingerprint template detected"), store)
        | .error (.validationFailed _) =>
            (.serverError ("Server error during fingerprint enrollment"), store)
        | .ok store2 => (.created fp, store2)

/-- `POST /api/fingerprints/enroll`: request-field validation, employee
lookup, Base64 decode, then `enrollDecoded`.  `Buffer.from(_, base64)`
never throws, so the source's catch returning 400 for malformed Base64
is unreachable and the decode is a total function here. -/
def enroll (ks : List Nat → Nat → Nat)
    (tagF : List Nat → List Nat → List Nat) (iv : List Nat) (now : Nat)
    (store : Store) (employees : List String) (req : EnrollReq)
    (actor : String) (newId : Nat) : EnrollResp × Store :=
  if jsFalsy req.employeeId then (.badRequest ("employeeId is required"), store)
  else if jsFalsy req.templateBase64 then
    (.badRequest ("templateBase64 is required"), store)
  else if badFormat req.format then
    (.badRequest ("Invalid format. Must be one of: ISO_19794_2, ISO_19794_4, ANSI_378, PROPRIETARY"), store)
  else if optOutside req.fingerIndexR 0 9 then
    (.badRequest ("fingerIndex must be between 0 and 9"), store)
  else if optOutside req.quality 0 100 then
    (.badRequest ("quality must be between 0 and 100"), store)
  else
    let emp := (req.employeeId.getD (""))
    if ¬ employees.contains emp then
      (.notFound ("Employee " ++ emp ++ " not found"), store)
    else
      enrollDecoded ks tagF iv now store emp
        (decodeBase64 (req.templateBase64.getD (""))) req.format
        req.fingerIndexR req.fingerName req.quality req.deviceInfo actor newId

/-- Response of `GET /api/fingerprints/template/:id`. -/
inductive TemplateResp where
  | notFound
  | forbidden (msg : String)
  | ok (employeeId : String) (template : String)
  | serverError (msg : String)
deriving DecidableEq, Repr

/-- HTTP status code of a template-retrieval response. -/
def templateStatus : TemplateResp → Nat
  | .notFound => 404
  | .forbidden _ => 403
  | .ok _ _ => 200
  | .serverError _ => 500

/-- Does a template-retrieval response carry decrypted template data? -/
def carriesTemplate : TemplateResp → Bool
  | .ok _ _ => true
  | _ => false

/-- `GET /api/fingerprints/template/:id`: 404 when absent, 403 when not
ACTIVE (decided before any decryption), 500 when decryption fails. -/
def getTemplateHandler (ks : List Nat → Nat → Nat)
    (tagF : List Nat → List Nat → List Nat) (store : Store) (id : Nat) :
    TemplateResp :=
  match store.find? (fun r => decide (r.id = id)) with
  | none => .notFound
  | some fp =>
    if fp.status ≠ .ACTIVE then
      .forbidden ("Cannot retrieve template: status is " ++ fp.status.str)
    else
      match getTemplateBase64 ks tagF fp with
      | .ok b64 => .ok fp.employeeId b64
      | .error _ => .serverError ("Failed to decrypt template")

/-- Response of `DELETE /api/fingerprints/:id`. -/
inductive RevokeResp where
  | notFound
  | ok (fp : Fingerprint)
  | serverError
deriving DecidableEq, Repr

/-- `DELETE /api/fingerprints/:id`: soft delete via `revoke` + `save()`;
note the handler revokes whatever the current status is. -/
def revokeHandler (now : Nat) (store : Store) (id : Nat) (actor : String)
    (reason : Option String) : RevokeResp × Store :=
  match store.find? (fun r => decide (r.id = id)) with
  | none => (.notFound, store)
  | some fp =>
    let fp2 := revoke now fp actor reason
    match saveExisting store fp2 with
    | .ok s2 => (.ok fp2, s2)
    | .error _ => (.serverError, store)

/-! ## Concrete model instances used by the closed witness statements -/

/-- A concrete keystream for witnesses. -/
def ks0 : List Nat → Nat → Nat := fun iv i => iv.getD 0 0 + 7 * i + 13

/-- A concrete 16-byte tag function for witnesses; it XORs the nonce with
the (zero-padded) ciphertext, so it is sensitive to every byte of the
nonce and to the leading 16 ciphertext bytes. -/
def tagF0 : List Nat → List Nat → List Nat :=
  fun iv ct => List.zipWith Nat.xor iv (ct ++ List.replicate 16 0)

/-- A concrete 16-byte nonce for witnesses. -/
def iv0 : List Nat := List.range 16

/-- Flip bit `j` of a byte list (bit `j % 8` of byte `j / 8`). -/
def flipBit (l : List Nat) (j : Nat) : List Nat :=
  l.set (j / 8) (Nat.xor (l.getD (j / 8) 0) (1 <<< (j % 8)))

/-- A blank, freshly constructed document for witness statements. -/
def blankFp : Fingerprint :=
  { id := 0
    employeeId := "EMP000"
    fingerIndexF := none
    fingerName := "UNKNOWN"
    format := "ISO_19794_2"
    quality := none
    encryptedTemplate := []
    templateHash := ""
    deviceVendor := "Mantra"
    deviceModel := "MFS110"
    enrolledBy := "admin"
    enrolledAt := 0
    status := .ACTIVE
    revokedAt := none
    revokedBy := none
    revokeReason := none
    lastVerifiedAt := none
    verificationCount := 0 }

/-- A persisted record that is already REVOKED, for counterexamples. -/
def revokedFp : Fingerprint :=
  { blankFp with
    id := 1
    templateHash := "h1"
    encryptedTemplate := List.replicate 33 1
    status := .REVOKED
    revokedAt := some 3
    revokedBy := some ("admin")
    revokeReason := some ("compromised") }

/-- A REVOKED record still carrying the content hash of the one-byte
plaintext `[1]`. -/
def revokedDupFp : Fingerprint :=
  { blankFp with
    id := 1
    templateHash := hashTemplate [1]
    encryptedTemplate := List.replicate 33 0
    status := .REVOKED
    revokedAt := some 2
    revokedBy := some ("admin")
    revokeReason := some ("rotation") }

/-- An ACTIVE record carrying the content hash of the plaintext `[2]`. -/
def activeDupFp : Fingerprint :=
  { blankFp with
    id := 1
    templateHash := hashTemplate [2]
    encryptedTemplate := List.replicate 33 2 }

/-- The record produced by a successful enrollment of the plaintext
`[3]`, for the C4 witness. -/
def createdFp3 : Fingerprint :=
  { id := 1
    employeeId := "EMP001"
    fingerIndexF := none
    fingerName := "UNKNOWN"
    format := "ISO_19794_2"
    quality := none
    encryptedTemplate := encryptTemplate ks0 tagF0 iv0 [3]
    templateHash := hashTemplate [3]
    deviceVendor := "Mantra"
    deviceModel := "MFS110"
    enrolledBy := "admin"
    enrolledAt := 0
    status := .ACTIVE
    revokedAt := none
    revokedBy := none
    revokeReason := none
    lastVerifiedAt := none
    verificationCount := 0 }

/-- A persisted ACTIVE record whose envelope is the bit-77-flipped
encryption of the plaintext `[171]`. -/
def fpFlip : Fingerprint :=
  { blankFp with
    id := 7
    templateHash := "hf"
    encryptedTemplate := flipBit (encryptTemplate ks0 tagF0 iv0 [171]) 77 }

/-! ## Helper lemmas -/

/-- Applying the keystream preserves the byte count. -/
theorem length_ctr (ks : List Nat → Nat → Nat) (iv b : List Nat) :
    (ctr ks iv b).length = b.length := by
  simp [ctr]

/-- XORing the same list in twice is the identity. -/
theorem zipWith_xor_cancel :
    ∀ (b k : List Nat), b.length ≤ k.length →
      List.zipWith Nat.xor (List.zipWith Nat.xor b k) k = b
  | [], _, _ => by simp
  | _ :: _, [], h => by simp at h
  | x :: xs, y :: ys, h => by
    simp only [List.zipWith_cons_cons, List.cons.injEq]
    exact ⟨Nat.xor_cancel_right y x,
      zipWith_xor_cancel xs ys (by simpa using h)⟩

/-- CTR decryption undoes CTR encryption under the same nonce. -/
theorem ctr_ctr (ks : List Nat → Nat → Nat) (iv b : List Nat) :
    ctr ks iv (ctr ks iv b) = b := by
  simp only [ctr, List.length_zipWith, List.length_map, List.length_range,
    min_self]
  exact zipWith_xor_cancel b _ (by simp)

/-- Slicing an envelope of a 16-byte nonce and a 16-byte tag recovers
its three parts at offsets 0:16, 16:32, 32:. -/
theorem envelope_slices (iv tag ct : List Nat) (hiv : iv.length = 16)
    (htag : tag.length = 16) :
    (iv ++ tag ++ ct).take 16 = iv ∧
    ((iv ++ tag ++ ct).drop 16).take 16 = tag ∧
    (iv ++ tag ++ ct).drop 32 = ct := by
  refine ⟨?_, ?_, ?_⟩
  · rw [List.append_assoc]
    exact List.take_left' hiv
  · rw [List.append_assoc, List.drop_left' hiv, List.take_left' htag]
  · exact List.drop_left' (by rw [List.length_append, hiv, htag])

/-! ## Claim C2 -/

/-- Claim C2: for every byte sequence `b` with length between 1 and
10485760 inclusive, decrypting the envelope produced by encrypting `b`
returns exactly `b` (the nonce has GCM's 16 bytes and the tag function
returns GCM's 16-byte tags). -/
theorem C2_encrypt_decrypt_roundtrip (ks : List Nat → Nat → Nat)
    (tagF : List Nat → List Nat → List Nat) (iv b : List Nat)
    (hiv : iv.length = 16)
    (htag : (tagF iv (ctr ks iv b)).length = 16)
    (_hlen1 : 1 ≤ b.length) (_hlen2 : b.length ≤ 10 * 1024 * 1024) :
    decryptTemplate ks tagF (encryptTemplate ks tagF iv b) = some b := by
  obtain ⟨h1, h2, h3⟩ := envelope_slices iv (tagF iv (ctr ks iv b)) (ctr ks iv b) hiv htag
  simp only [encryptTemplate, decryptTemplate, h1, h2, h3, if_pos rfl, ctr_ctr,
    if_true]

/-- Witness for C2 at the one-byte plaintext `[42]` with the concrete
model instances. -/
theorem C2_encrypt_decrypt_roundtrip_witness :
    iv0.length = 16 ∧ (tagF0 iv0 (ctr ks0 iv0 [42])).length = 16 ∧
    1 ≤ [42].length ∧ [42].length ≤ 10 * 1024 * 1024 ∧
    decryptTemplate ks0 tagF0 (encryptTemplate ks0 tagF0 iv0 [42]) = some [42] :=
  ⟨by decide, by decide, by decide, by decide,
    C2_encrypt_decrypt_roundtrip ks0 tagF0 iv0 [42] (by decide) (by decide)
      (by decide) (by decide)⟩

/-- The envelope is 32 bytes of header plus one ciphertext byte per
plaintext byte. -/
theorem length_encryptTemplate (ks : List Nat → Nat → Nat)
    (tagF : List Nat → List Nat → List Nat) (iv b : List Nat)
    (hiv : iv.length = 16) (htag : (tagF iv (ctr ks iv b)).length = 16) :
    (encryptTemplate ks tagF iv b).length = b.length + 32 := by
  simp only [encryptTemplate, List.length_append, hiv, htag, length_ctr]
  omega

/-- `setTemplate` on an in-bounds buffer succeeds and stores the hash
and the envelope. -/
theorem setTemplate_ok (ks : List Nat → Nat → Nat)
    (tagF : List Nat → List Nat → List Nat) (iv b : List Nat)
    (fp : Fingerprint)
    (h : ¬ (b.length = 0 ∨ b.length > 10 * 1024 * 1024)) :
    setTemplate ks tagF iv fp (.bytes b) =
      .ok ({ fp with templateHash := hashTemplate b,
                     encryptedTemplate := encryptTemplate ks tagF iv b },
           { templateHash := hashTemplate b,
             encryptedSize := (encryptTemplate ks tagF iv b).length,
             originalSize := b.length }) := by
  simp only [setTemplate]
  rw [if_neg h]

/-! ## Claim C9 -/

/-- Claim C9: every plaintext `b` accepted by `setTemplate` yields an
encrypted envelope of exactly `b.length + 32` bytes (16-byte IV, 16-byte
tag, ciphertext of `b.length` bytes); a maximal 10485760-byte plaintext
yields a 10485792-byte envelope. -/
theorem C9_envelope_size (ks : List Nat → Nat → Nat)
    (tagF : List Nat → List Nat → List Nat) (iv b : List Nat)
    (fp : Fingerprint) (hiv : iv.length = 16)
    (htag : (tagF iv (ctr ks iv b)).length = 16)
    (h1 : 1 ≤ b.length) (h2 : b.length ≤ 10 * 1024 * 1024) :
    setTemplate ks tagF iv fp (.bytes b) =
      .ok ({ fp with templateHash := hashTemplate b,
                     encryptedTemplate := encryptTemplate ks tagF iv b },
           { templateHash := hashTemplate b,
             encryptedSize := b.length + 32,
             originalSize := b.length }) ∧
    (encryptTemplate ks tagF iv b).length = b.length + 32 ∧
    (b.length = 10 * 1024 * 1024 →
      (encryptTemplate ks tagF iv b).length = 10485792) := by
  have hl : (encryptTemplate ks tagF iv b).length = b.length + 32 :=
    length_encryptTemplate ks tagF iv b hiv htag
  refine ⟨?_, hl, fun h => by rw [hl, h]⟩
  rw [setTemplate_ok ks tagF iv b fp (by omega), hl]

/-- Witness for C9 at the one-byte plaintext `[5]`. -/
theorem C9_envelope_size_witness :
    iv0.length = 16 ∧ (tagF0 iv0 (ctr ks0 iv0 [5])).length = 16 ∧
    setTemplate ks0 tagF0 iv0 blankFp (.bytes [5]) =
      .ok ({ blankFp with templateHash := hashTemplate [5],
                          encryptedTemplate := encryptTemplate ks0 tagF0 iv0 [5] },
           { templateHash := hashTemplate [5],
             encryptedSize := [5].length + 32,
             originalSize := [5].length }) ∧
    (encryptTemplate ks0 tagF0 iv0 [5]).length = [5].length + 32 :=
  ⟨by decide, by decide,
    (C9_envelope_size ks0 tagF0 iv0 [5] blankFp (by decide) (by decide)
      (by decide) (by decide)).1,
    (C9_envelope_size ks0 tagF0 iv0 [5] blankFp (by decide) (by decide)
      (by decide) (by decide)).2.1⟩

/-! ## Claim C3 -/

/-- Claim C3: after a successful `setTemplate(b)`, the record's
`templateHash` is the hex-encoded SHA-256 digest of the plaintext `b`
(computed before encryption), and the stored `encryptedTemplate` is, in
this order, a 16-byte nonce, then a 16-byte authentication tag, then the
ciphertext. -/
theorem C3_hash_and_envelope_layout (ks : List Nat → Nat → Nat)
    (tagF : List Nat → List Nat → List Nat) (iv b : List Nat)
    (fp fp2 : Fingerprint) (info : SetTemplateInfo)
    (hiv : iv.length = 16)
    (htag : (tagF iv (ctr ks iv b)).length = 16)
    (hset : setTemplate ks tagF iv fp (.bytes b) = .ok (fp2, info)) :
    fp2.templateHash = bytesToHex (sha256 b) ∧
    ∃ nonce tag ct, nonce.length = 16 ∧ tag.length = 16 ∧
      ct = ctr ks iv b ∧ fp2.encryptedTemplate = nonce ++ tag ++ ct := by
  simp only [setTemplate] at hset
  by_cases hc : b.length = 0 ∨ b.length > 10 * 1024 * 1024
  · rw [if_pos hc] at hset
    exact absurd hset (by simp)
  · rw [if_neg hc] at hset
    simp only [Except.ok.injEq, Prod.mk.injEq] at hset
    obtain ⟨hfp2, -⟩ := hset
    subst hfp2
    exact ⟨rfl, iv, tagF iv (ctr ks iv b), ctr ks iv b, hiv, htag, rfl, rfl⟩

/-- Witness for C3 at the one-byte plaintext `[9]`. -/
theorem C3_hash_and_envelope_layout_witness :
    iv0.length = 16 ∧ (tagF0 iv0 (ctr ks0 iv0 [9])).length = 16 ∧
    setTemplate ks0 tagF0 iv0 blankFp (.bytes [9]) =
      .ok ({ blankFp with templateHash := hashTemplate [9],
                          encryptedTemplate := encryptTemplate ks0 tagF0 iv0 [9] },
           { templateHash := hashTemplate [9],
             encryptedSize := (encryptTemplate ks0 tagF0 iv0 [9]).length,
             originalSize := [9].length }) ∧
    (({ blankFp with templateHash := hashTemplate [9],
                     encryptedTemplate :=
                       encryptTemplate ks0 tagF0 iv0 [9] } :
        Fingerprint).templateHash = bytesToHex (sha256 [9]) ∧
     ∃ nonce tag ct, nonce.length = 16 ∧ tag.length = 16 ∧
       ct = ctr ks0 iv0 [9] ∧
       ({ blankFp with templateHash := hashTemplate [9],
                       encryptedTemplate :=
                         encryptTemplate ks0 tagF0 iv0 [9] } :
          Fingerprint).encryptedTemplate = nonce ++ tag ++ ct) :=
  ⟨by decide, by decide, by simp [setTemplate],
    C3_hash_and_envelope_layout ks0 tagF0 iv0 [9] blankFp
      { blankFp with templateHash := hashTemplate [9],
                     encryptedTemplate := encryptTemplate ks0 tagF0 iv0 [9] }
      { templateHash := hashTemplate [9],
        encryptedSize := (encryptTemplate ks0 tagF0 iv0 [9]).length,
        originalSize := [9].length }
      (by decide) (by decide) (by simp [setTemplate])⟩

/-! ## Claim C10 -/

/-- Claim C10: `recordVerification` is legal on a record of any status,
increments `verificationCount` by exactly 1, stamps `lastVerifiedAt`,
and leaves every other field unchanged. -/
theorem C10_recordVerification_frame (now : Nat) (fp : Fingerprint) :
    (recordVerification now fp).verificationCount = fp.verificationCount + 1 ∧
    (recordVerification now fp).lastVerifiedAt = some now ∧
    (recordVerification now fp).id = fp.id ∧
    (recordVerification now fp).employeeId = fp.employeeId ∧
    (recordVerification now fp).fingerIndexF = fp.fingerIndexF ∧
    (recordVerification now fp).fingerName = fp.fingerName ∧
    (recordVerification now fp).format = fp.format ∧
    (recordVerification now fp).quality = fp.quality ∧
    (recordVerification now fp).encryptedTemplate = fp.encryptedTemplate ∧
    (recordVerification now fp).templateHash = fp.templateHash ∧
    (recordVerification now fp).deviceVendor = fp.deviceVendor ∧
    (recordVerification now fp).deviceModel = fp.deviceModel ∧
    (recordVerification now fp).enrolledBy = fp.enrolledBy ∧
    (recordVerification now fp).enrolledAt = fp.enrolledAt ∧
    (recordVerification now fp).status = fp.status ∧
    (recordVerification now fp).revokedAt = fp.revokedAt ∧
    (recordVerification now fp).revokedBy = fp.revokedBy ∧
    (recordVerification now fp).revokeReason = fp.revokeReason :=
  ⟨rfl, rfl, rfl, rfl, rfl, rfl, rfl, rfl, rfl, rfl, rfl, rfl, rfl, rfl,
   rfl, rfl, rfl, rfl⟩

/-! ## Claim C5 -/

/-- Counterexample to claim C5: invoking the revoke route on a record
whose status is already REVOKED does not fail with any error — it
succeeds and re-stamps the revocation fields, changing the record. -/
theorem C5_revoke_nonactive_counterexample :
    revokeHandler 9 [revokedFp] 1 ("admin2") none =
      (RevokeResp.ok (revoke 9 revokedFp ("admin2") none),
       [revoke 9 revokedFp ("admin2") none]) ∧
    revoke 9 revokedFp ("admin2") none ≠ revokedFp ∧
    (revoke 9 revokedFp ("admin2") none).revokedBy = some ("admin2") := by
  refine ⟨by decide, by decide, by decide⟩

/-- Claim C5 as amended: `revoke` performs no status check.  On a record
of ANY status (ACTIVE, REVOKED or EXPIRED alike) it succeeds, sets
status to REVOKED and stamps `revokedBy`/`revokedAt`/`revokeReason`,
where the reason defaults to the sentinel string and is never null. -/
theorem C5_revoke_unconditional (now : Nat) (fp : Fingerprint)
    (actor : String) (reason : Option String) :
    (revoke now fp actor reason).status = Status.REVOKED ∧
    (revoke now fp actor reason).revokedBy = some actor ∧
    (revoke now fp actor reason).revokedAt = some now ∧
    (revoke now fp actor reason).revokeReason =
      some (jsOr reason ("No reason provided")) ∧
    (revoke now fp actor reason).revokeReason ≠ none :=
  ⟨rfl, rfl, rfl, rfl, by simp [revoke]⟩

/-! ## Claim C6 -/

/-- Claim C6: `retrieveDecrypted` fails with a 404 not-found response
when no record with the id exists, and with a distinct 403 state
response when the record exists but is not ACTIVE; in the non-ACTIVE
case the response never carries template data (the handler is a pure
function of the store, so this holds on every repeated call). -/
theorem C6_retrieve_notfound_state_errors (ks : List Nat → Nat → Nat)
    (tagF : List Nat → List Nat → List Nat) (store : Store) (id : Nat) :
    (store.find? (fun r => decide (r.id = id)) = none →
      getTemplateHandler ks tagF store id = .notFound) ∧
    (∀ fp, store.find? (fun r => decide (r.id = id)) = some fp →
      fp.status ≠ Status.ACTIVE →
      getTemplateHandler ks tagF store id =
        .forbidden ("Cannot retrieve template: status is " ++ fp.status.str) ∧
      carriesTemplate (getTemplateHandler ks tagF store id) = false ∧
      templateStatus (getTemplateHandler ks tagF store id) = 403 ∧
      getTemplateHandler ks tagF store id ≠ .notFound) := by
  constructor
  · intro h
    simp [getTemplateHandler, h]
  · intro fp hfp hst
    have hres : getTemplateHandler ks tagF store id =
        .forbidden ("Cannot retrieve template: status is " ++ fp.status.str) := by
      simp only [getTemplateHandler, hfp]
      rw [if_pos hst]
    exact ⟨hres, by rw [hres]; rfl, by rw [hres]; rfl, by rw [hres]; simp⟩

/-- Witness for C6: an empty store yields 404; a store holding only the
already-revoked record yields the 403 state response with no template. -/
theorem C6_retrieve_notfound_state_errors_witness :
    getTemplateHandler ks0 tagF0 [] 0 = .notFound ∧
    (getTemplateHandler ks0 tagF0 [revokedFp] 1 =
       .forbidden ("Cannot retrieve template: status is " ++ revokedFp.status.str) ∧
     carriesTemplate (getTemplateHandler ks0 tagF0 [revokedFp] 1) = false ∧
     templateStatus (getTemplateHandler ks0 tagF0 [revokedFp] 1) = 403 ∧
     getTemplateHandler ks0 tagF0 [revokedFp] 1 ≠ .notFound) :=
  ⟨(C6_retrieve_notfound_state_errors ks0 tagF0 [] 0).1 rfl,
   (C6_retrieve_notfound_state_errors ks0 tagF0 [revokedFp] 1).2 revokedFp
     (by decide) (by decide)⟩

/-! ## Claim C8 -/

/-- Claim C8 evaluated on the code: the enroll route does perform the
Base64 decode itself, but `Buffer.from(_, base64)` decodes leniently and
never throws, so the malformed input `AAAA!` (the `!` is outside every
Base64 alphabet) silently decodes to the three bytes `[0, 0, 0]` and the
enrollment SUCCEEDS with a persisted record, instead of failing with a
`ValidationError` as both the claim and the route's own (unreachable)
catch branch `Invalid Base64 template data` intend. -/
theorem C8_lenient_base64_creates_record :
    decodeBase64 ("AAAA!") = [0, 0, 0] ∧
    (enroll ks0 tagF0 iv0 0 [] ["EMP001"]
      { employeeId := some ("EMP001"), templateBase64 := some ("AAAA!"),
        format := none, fingerIndexR := none, fingerName := none,
        quality := none, deviceInfo := none } ("admin") 1).1.isCreated = true ∧
    ((enroll ks0 tagF0 iv0 0 [] ["EMP001"]
      { employeeId := some ("EMP001"), templateBase64 := some ("AAAA!"),
        format := none, fingerIndexR := none, fingerName := none,
        quality := none, deviceInfo := none } ("admin") 1).2).length = 1 := by
  refine ⟨by decide, by decide, by decide⟩

/-! ## Claim C1 -/

/-- Counterexample to claim C1: with the prior record revoked (so no
ACTIVE record carries the hash of `[1]`, as the first conjunct checks),
re-enrolling the same plaintext `[1]` (Base64 `AQ==`) does NOT succeed:
the application pre-check passes but the global `unique: true` index on
`templateHash` rejects the insert with a duplicate-key error, which the
route maps to the 409 conflict response, leaving the store unchanged. -/
theorem C1_reenroll_after_revoke_counterexample :
    templateExists [revokedDupFp] (hashTemplate [1]) = false ∧
    decodeBase64 ("AQ==") = [1] ∧
    enroll ks0 tagF0 iv0 3 [revokedDupFp] ["EMP001"]
      { employeeId := some ("EMP001"), templateBase64 := some ("AQ=="),
        format := none, fingerIndexR := none, fingerName := none,
        quality := none, deviceInfo := none } ("admin") 2 =
      (.conflict ("Duplicate fingerprint template detected"), [revokedDupFp]) := by
  refine ⟨by decide, by decide, by decide⟩

/-- Claim C1 as amended: enrolling a plaintext whose content hash is
already carried by an ACTIVE record fails with the 409 conflict response
and performs no write; and after that record is revoked the same
enrollment STILL fails with a 409 conflict and no write, because the
schema-level unique index on `templateHash` is global over records of
every status.  Both cases are the single statement: a hash collision
with ANY stored record makes enrollment answer conflict and leave the
store unchanged. -/
theorem C1_dedup_conflict (ks : List Nat → Nat → Nat)
    (tagF : List Nat → List Nat → List Nat) (iv : List Nat) (now : Nat)
    (store : Store) (e : String) (b : List Nat) (fmt fn : Option String)
    (fi q : Option Int) (di : Option (String × String)) (actor : String)
    (newId : Nat)
    (hiv : iv.length = 16) (htag : (tagF iv (ctr ks iv b)).length = 16)
    (hb1 : 1 ≤ b.length) (hb2 : b.length + 32 ≤ 10 * 1024 * 1024)
    (hdup : ∃ r, r ∈ store ∧ r.templateHash = hashTemplate b) :
    ∃ msg, enrollDecoded ks tagF iv now store e b fmt fi fn q di actor newId =
      (.conflict msg, store) := by
  simp only [enrollDecoded]
  rw [if_neg (by omega)]
  rw [setTemplate_ok ks tagF iv b _ (by omega)]
  by_cases hx : templateExists store (hashTemplate b) = true
  · refine ⟨"This fingerprint template is already enrolled (duplicate detected)", ?_⟩
    simp only [hx, if_true]
  · have hvalid : encryptedTemplateValid (encryptTemplate ks tagF iv b) = true := by
      simp only [encryptedTemplateValid,
        length_encryptTemplate ks tagF iv b hiv htag, decide_eq_true_eq]
      omega
    have hany : store.any (fun r => decide (r.templateHash = hashTemplate b)) = true := by
      obtain ⟨r, hr, hhash⟩ := hdup
      exact List.any_eq_true.mpr ⟨r, hr, by simp [hhash]⟩
    refine ⟨"Duplicate fingerprint template detected", ?_⟩
    simp only [Bool.not_eq_true] at hx
    simp only [hx, Bool.false_eq_true, if_false, saveNew, hvalid, hany,
      not_true, if_false, if_true]

/-- The concrete tag function always returns 16 bytes under a 16-byte
nonce. -/
theorem length_tagF0 (iv ct : List Nat) (h : iv.length = 16) :
    (tagF0 iv ct).length = 16 := by
  simp only [tagF0, List.length_zipWith, List.length_append,
    List.length_replicate, h]
  omega

/-- Witness for the amended C1 at a store holding an ACTIVE duplicate of
the plaintext `[2]`. -/
theorem C1_dedup_conflict_witness :
    iv0.length = 16 ∧ (tagF0 iv0 (ctr ks0 iv0 [2])).length = 16 ∧
    activeDupFp ∈ [activeDupFp] ∧
    activeDupFp.templateHash = hashTemplate [2] ∧
    (∃ msg, enrollDecoded ks0 tagF0 iv0 4 [activeDupFp] ("EMP001") [2]
        none none none none none ("admin") 2 =
      (.conflict msg, [activeDupFp])) :=
  ⟨by decide, by decide, List.mem_singleton.mpr rfl, rfl,
    C1_dedup_conflict ks0 tagF0 iv0 4 [activeDupFp] ("EMP001") [2]
      none none none none none ("admin") 2 (by decide) (by decide)
      (by decide) (by decide)
      ⟨activeDupFp, List.mem_singleton.mpr rfl, rfl⟩⟩

/-! ## Claim C4 -/

/-- `save()` rejects any document whose envelope fails the schema
validator, before the unique index is consulted. -/
theorem saveNew_invalid (store : Store) (fp : Fingerprint)
    (h : encryptedTemplateValid fp.encryptedTemplate = false) :
    saveNew store fp =
      .error (.validationFailed ("Template must be between 1 byte and 10MB")) := by
  simp only [saveNew]
  rw [if_pos (by simp [h])]

/-- A successful `save()` implies the envelope passed the validator. -/
theorem saveNew_ok_valid (store : Store) (fp : Fingerprint) (s2 : Store)
    (h : saveNew store fp = .ok s2) :
    encryptedTemplateValid fp.encryptedTemplate = true := by
  by_cases hv : encryptedTemplateValid fp.encryptedTemplate = true
  · exact hv
  · simp only [saveNew] at h
    rw [if_pos hv] at h
    exact absurd h (by simp)

/-- Counterexample to claim C4: enrollment of a template of exactly
10485760 bytes is NOT persisted.  It passes the route's size check and
`setTemplate`, but the resulting 10485792-byte envelope fails the
`encryptedTemplate` schema validator (max 10485760 bytes of ENCRYPTED
data) at `save()`, so the route answers 500 and writes nothing. -/
theorem C4_max_size_counterexample :
    (List.replicate (10 * 1024 * 1024) 7).length = 10485760 ∧
    enrollDecoded ks0 tagF0 iv0 0 [] ("EMP001")
        (List.replicate (10 * 1024 * 1024) 7) none none none none none
        ("admin") 1 =
      (.serverError ("Server error during fingerprint enrollment"), []) := by
  refine ⟨by rw [List.length_replicate], ?_⟩
  generalize hgen : List.replicate (10 * 1024 * 1024) 7 = b
  have hb : b.length = 10 * 1024 * 1024 := by
    rw [← hgen]; exact List.length_replicate _ _
  have hv : encryptedTemplateValid (encryptTemplate ks0 tagF0 iv0 b) = false := by
    have hlen := length_encryptTemplate ks0 tagF0 iv0 b (by decide)
      (length_tagF0 iv0 _ (by decide))
    simp only [encryptedTemplateValid, hlen, hb, decide_eq_false_iff_not]
    omega
  simp only [enrollDecoded]
  split
  · next hsz => exact absurd hsz (by omega)
  · next hsz =>
    split
    · next msg heq =>
      rw [setTemplate_ok ks0 tagF0 iv0 b _ hsz] at heq
      exact absurd heq (by simp)
    · next fp snd heq =>
      rw [setTemplate_ok ks0 tagF0 iv0 b _ hsz] at heq
      simp only [Except.ok.injEq, Prod.mk.injEq] at heq
      obtain ⟨hfp, -⟩ := heq
      have h2 : fp.encryptedTemplate = encryptTemplate ks0 tagF0 iv0 b := by
        rw [← hfp]
      have h1 : fp.templateHash = hashTemplate b := by
        rw [← hfp]
      split
      · next hx =>
        rw [h1] at hx
        exact absurd hx (by simp [templateExists])
      · next hx =>
        have hsn := saveNew_invalid [] fp (by rw [h2]; exact hv)
        split
        · next heq2 =>
          rw [hsn] at heq2
          exact absurd heq2 (by simp)
        · next heq2 => rfl
        · next s2 heq2 =>
          rw [hsn] at heq2
          exact absurd heq2 (by simp)

/-- Claim C4 as amended: a 0-byte template is rejected with the 400
size response; a 10485761-byte template is rejected the same way; a
template of exactly 10485760 bytes passes the size checks and
`setTemplate` but its envelope fails the `encryptedTemplate` schema
validator at `save()`, so the route answers 500 and persists nothing;
and every envelope that IS persisted by a successful enrollment has
length in [33, 10485760]. -/
theorem C4_boundary_sizes (ks : List Nat → Nat → Nat)
    (tagF : List Nat → List Nat → List Nat) (iv : List Nat) (now : Nat)
    (store : Store) (e : String) (fmt fn : Option String) (fi q : Option Int)
    (di : Option (String × String)) (actor : String) (nid : Nat)
    (hiv : iv.length = 16) :
    (∀ b : List Nat, b.length = 0 →
      enrollDecoded ks tagF iv now store e b fmt fi fn q di actor nid =
        (.badRequest ("Template size must be between 1 byte and 10MB"), store)) ∧
    (∀ b : List Nat, b.length = 10485761 →
      enrollDecoded ks tagF iv now store e b fmt fi fn q di actor nid =
        (.badRequest ("Template size must be between 1 byte and 10MB"), store)) ∧
    (∀ b : List Nat, b.length = 10485760 →
      (tagF iv (ctr ks iv b)).length = 16 →
      templateExists store (hashTemplate b) = false →
      enrollDecoded ks tagF iv now store e b fmt fi fn q di actor nid =
        (.serverError ("Server error during fingerprint enrollment"), store)) ∧
    (∀ (b : List Nat) (fp : Fingerprint) (s2 : Store),
      (tagF iv (ctr ks iv b)).length = 16 →
      enrollDecoded ks tagF iv now store e b fmt fi fn q di actor nid =
        (.created fp, s2) →
      33 ≤ fp.encryptedTemplate.length ∧
      fp.encryptedTemplate.length ≤ 10485760) := by
  refine ⟨?_, ?_, ?_, ?_⟩
  · intro b hb
    simp only [enrollDecoded]
    rw [if_pos (Or.inl hb)]
  · intro b hb
    simp only [enrollDecoded]
    rw [if_pos (Or.inr (by omega))]
  · intro b hb htag hte
    have hv : encryptedTemplateValid (encryptTemplate ks tagF iv b) = false := by
      have hlen := length_encryptTemplate ks tagF iv b hiv htag
      simp only [encryptedTemplateValid, hlen, decide_eq_false_iff_not]
      omega
    simp only [enrollDecoded]
    split
    · next hsz => exact absurd hsz (by omega)
    · next hsz =>
      split
      · next msg heq =>
        rw [setTemplate_ok ks tagF iv b _ hsz] at heq
        exact absurd heq (by simp)
      · next fp snd heq =>
        rw [setTemplate_ok ks tagF iv b _ hsz] at heq
        simp only [Except.ok.injEq, Prod.mk.injEq] at heq
        obtain ⟨hfp, -⟩ := heq
        have h2 : fp.encryptedTemplate = encryptTemplate ks tagF iv b := by
          rw [← hfp]
        have h1 : fp.templateHash = hashTemplate b := by
          rw [← hfp]
        split
        · next hx =>
          rw [h1, hte] at hx
          exact absurd hx (by simp)
        · next hx =>
          have hsn := saveNew_invalid store fp (by rw [h2]; exact hv)
          split
          · next heq2 =>
            rw [hsn] at heq2
            exact absurd heq2 (by simp)
          · next heq2 => rfl
          · next s2 heq2 =>
            rw [hsn] at heq2
            exact absurd heq2 (by simp)
  · intro b fp s2 htag h
    simp only [enrollDecoded] at h
    split at h
    · next hsz => exact absurd h (by simp)
    · next hsz =>
      split at h
      · next msg heq => exact absurd h (by simp)
      · next fp1 snd heq =>
        rw [setTemplate_ok ks tagF iv b _ hsz] at heq
        simp only [Except.ok.injEq, Prod.mk.injEq] at heq
        obtain ⟨hfp1, -⟩ := heq
        have h2 : fp1.encryptedTemplate = encryptTemplate ks tagF iv b := by
          rw [← hfp1]
        split at h
        · next hx => exact absurd h (by simp)
        · next hx =>
          split at h
          · next heq2 => exact absurd h (by simp)
          · next heq2 => exact absurd h (by simp)
          · next s2a heq2 =>
            have hvt := saveNew_ok_valid store fp1 s2a heq2
            simp only [Prod.mk.injEq, EnrollResp.created.injEq] at h
            obtain ⟨hfp, -⟩ := h
            subst hfp
            rw [h2] at hvt ⊢
            have hlen := length_encryptTemplate ks tagF iv b hiv htag
            simp only [encryptedTemplateValid, hlen, decide_eq_true_eq] at hvt
            rw [hlen]
            omega

/-- Witness for the amended C4 at concrete sizes 0, 10485761, 10485760
and at the concrete successful enrollment of `[3]`. -/
theorem C4_boundary_sizes_witness :
    enrollDecoded ks0 tagF0 iv0 0 [] ("EMP001") [] none none none none none
        ("admin") 1 =
      (.badRequest ("Template size must be between 1 byte and 10MB"), []) ∧
    enrollDecoded ks0 tagF0 iv0 0 [] ("EMP001") (List.replicate 10485761 0)
        none none none none none ("admin") 1 =
      (.badRequest ("Template size must be between 1 byte and 10MB"), []) ∧
    enrollDecoded ks0 tagF0 iv0 0 [] ("EMP001") (List.replicate 10485760 0)
        none none none none none ("admin") 1 =
      (.serverError ("Server error during fingerprint enrollment"), []) ∧
    (33 ≤ createdFp3.encryptedTemplate.length ∧
     createdFp3.encryptedTemplate.length ≤ 10485760) :=
  ⟨(C4_boundary_sizes ks0 tagF0 iv0 0 [] ("EMP001") none none none none none
      ("admin") 1 (by decide)).1 [] rfl,
   (C4_boundary_sizes ks0 tagF0 iv0 0 [] ("EMP001") none none none none none
      ("admin") 1 (by decide)).2.1 (List.replicate 10485761 0)
      (List.length_replicate _ _),
   (C4_boundary_sizes ks0 tagF0 iv0 0 [] ("EMP001") none none none none none
      ("admin") 1 (by decide)).2.2.1 (List.replicate 10485760 0)
      (List.length_replicate _ _) (length_tagF0 iv0 _ (by decide)) rfl,
   (C4_boundary_sizes ks0 tagF0 iv0 0 [] ("EMP001") none none none none none
      ("admin") 1 (by decide)).2.2.2 [3] createdFp3 [createdFp3]
      (by decide) (by decide)⟩

/-! ## Claim C7 -/

/-- Flipping a bit preserves the byte count. -/
theorem length_flipBit (l : List Nat) (j : Nat) :
    (flipBit l j).length = l.length := by
  simp [flipBit]

/-- A bit flip inside the left part of an appended list stays left. -/
theorem flipBit_append_left (l1 l2 : List Nat) (j : Nat)
    (h : j < 8 * l1.length) :
    flipBit (l1 ++ l2) j = flipBit l1 j ++ l2 := by
  have hn : j / 8 < l1.length := by omega
  simp only [flipBit, List.set_append_left _ _ hn, List.getD_append _ _ _ _ hn]

/-- A bit flip past the left part of an appended list acts on the right
part, shifted by the left part's bit count. -/
theorem flipBit_append_right (l1 l2 : List Nat) (j : Nat)
    (h : 8 * l1.length ≤ j) :
    flipBit (l1 ++ l2) j = l1 ++ flipBit l2 (j - 8 * l1.length) := by
  have hn : l1.length ≤ j / 8 := by omega
  have hdiv : (j - 8 * l1.length) / 8 = j / 8 - l1.length := by omega
  have hmod : (j - 8 * l1.length) % 8 = j % 8 := by omega
  simp only [flipBit, List.set_append_right _ _ hn,
    List.getD_append_right _ _ _ _ hn, hdiv, hmod]

/-- Flipping an in-range bit really changes the list. -/
theorem flipBit_ne (l : List Nat) (j : Nat) (h : j < 8 * l.length) :
    flipBit l j ≠ l := by
  intro heq
  have hn : j / 8 < l.length := by omega
  have hget : (flipBit l j).getD (j / 8) 0 =
      Nat.xor (l.getD (j / 8) 0) (1 <<< (j % 8)) := by
    simp only [flipBit]
    rw [List.getD_eq_getElem _ _ (by simpa using hn)]
    simp [List.getElem_set_self]
  rw [heq] at hget
  have hzero : (1 <<< (j % 8)) = 0 := by
    calc (1 <<< (j % 8))
        = Nat.xor (l.getD (j / 8) 0)
            (Nat.xor (l.getD (j / 8) 0) (1 <<< (j % 8))) :=
          (Nat.xor_cancel_left _ _).symm
      _ = Nat.xor (l.getD (j / 8) 0) (l.getD (j / 8) 0) := by rw [← hget]
      _ = 0 := Nat.xor_self _
  simp [Nat.one_shiftLeft, Nat.pow_eq_zero] at hzero

/-- Decryption fails whenever the tag recomputed over the received
ciphertext differs from the stored tag. -/
theorem decryptTemplate_tag_mismatch (ks : List Nat → Nat → Nat)
    (tagF : List Nat → List Nat → List Nat) (ivr tagr ctr' : List Nat)
    (hiv : ivr.length = 16) (htag : tagr.length = 16)
    (hne : tagF ivr ctr' ≠ tagr) :
    decryptTemplate ks tagF (ivr ++ tagr ++ ctr') = none := by
  obtain ⟨h1, h2, h3⟩ := envelope_slices ivr tagr ctr' hiv htag
  simp only [decryptTemplate, h1, h2, h3]
  rw [if_neg hne]

/-- Claim C7: flipping any single bit of a stored envelope makes
decryption fail the authentication check (`none`, the thrown GCM auth
error), so the retrieval route answers the 500 integrity failure and
never returns corrupted plaintext; that failure is distinguishable from
the 404 not-found response.  The hypotheses on `tagF` are GCM's
guarantees: 16-byte tags, and a tag that changes whenever a single bit
of the nonce or of the ciphertext is flipped (GHASH with a nonzero
hash key separates single-bit differences). -/
theorem C7_bit_flip_integrity (ks : List Nat → Nat → Nat)
    (tagF : List Nat → List Nat → List Nat) (iv b : List Nat) (j : Nat)
    (store : Store) (id : Nat) (fp : Fingerprint)
    (hiv : iv.length = 16)
    (htag : (tagF iv (ctr ks iv b)).length = 16)
    (hsepIv : ∀ j' < 128,
      tagF (flipBit iv j') (ctr ks iv b) ≠ tagF iv (ctr ks iv b))
    (hsepCt : ∀ j' < 8 * b.length,
      tagF iv (flipBit (ctr ks iv b) j') ≠ tagF iv (ctr ks iv b))
    (hj : j < 8 * (encryptTemplate ks tagF iv b).length)
    (hfind : store.find? (fun r => decide (r.id = id)) = some fp)
    (hst : fp.status = Status.ACTIVE)
    (henc : fp.encryptedTemplate = flipBit (encryptTemplate ks tagF iv b) j) :
    decryptTemplate ks tagF (flipBit (encryptTemplate ks tagF iv b) j) = none ∧
    getTemplateHandler ks tagF store id =
      .serverError ("Failed to decrypt template") ∧
    TemplateResp.serverError ("Failed to decrypt template") ≠
      TemplateResp.notFound ∧
    templateStatus (.serverError ("Failed to decrypt template")) = 500 ∧
    templateStatus .notFound = 404 := by
  have hctlen : (ctr ks iv b).length = b.length := length_ctr ks iv b
  have helen : (encryptTemplate ks tagF iv b).length = b.length + 32 :=
    length_encryptTemplate ks tagF iv b hiv htag
  have he : encryptTemplate ks tagF iv b =
      (iv ++ tagF iv (ctr ks iv b)) ++ ctr ks iv b := rfl
  have hdec : decryptTemplate ks tagF
      (flipBit (encryptTemplate ks tagF iv b) j) = none := by
    rw [he]
    by_cases h1 : j < 128
    · rw [flipBit_append_left _ _ _
        (by rw [List.length_append, hiv, htag]; omega)]
      rw [flipBit_append_left _ _ _ (by rw [hiv]; omega)]
      exact decryptTemplate_tag_mismatch ks tagF _ _ _
        (by rw [length_flipBit, hiv]) htag (hsepIv j h1)
    · by_cases h2 : j < 256
      · rw [flipBit_append_left _ _ _
          (by rw [List.length_append, hiv, htag]; omega)]
        rw [flipBit_append_right _ _ _ (by rw [hiv]; omega)]
        refine decryptTemplate_tag_mismatch ks tagF _ _ _ hiv
          (by rw [length_flipBit, htag]) ?_
        have hne := flipBit_ne (tagF iv (ctr ks iv b)) (j - 8 * iv.length)
          (by rw [htag, hiv]; omega)
        exact fun hcontra => hne hcontra.symm
      · rw [flipBit_append_right _ _ _
          (by rw [List.length_append, hiv, htag]; omega)]
        refine decryptTemplate_tag_mismatch ks tagF _ _ _ hiv htag ?_
        refine hsepCt _ ?_
        rw [List.length_append, hiv, htag]
        omega
  refine ⟨hdec, ?_, by simp, rfl, rfl⟩
  simp only [getTemplateHandler, hfind]
  rw [if_neg (by simp [hst])]
  simp [getTemplateBase64, getTemplate, henc, hdec, Except.map]

/-- Witness for C7 at the one-byte plaintext `[171]` with bit 77 (a
nonce bit) flipped in the stored envelope. -/
theorem C7_bit_flip_integrity_witness :
    decryptTemplate ks0 tagF0
      (flipBit (encryptTemplate ks0 tagF0 iv0 [171]) 77) = none ∧
    getTemplateHandler ks0 tagF0 [fpFlip] 7 =
      .serverError ("Failed to decrypt template") ∧
    TemplateResp.serverError ("Failed to decrypt template") ≠
      TemplateResp.notFound ∧
    templateStatus (.serverError ("Failed to decrypt template")) = 500 ∧
    templateStatus .notFound = 404 :=
  C7_bit_flip_integrity ks0 tagF0 iv0 [171] 77 [fpFlip] 7 fpFlip
    (by decide) (by decide) (by decide) (by decide) (by decide) (by decide)
    (by decide) rfl

end Vault
